import Mathlib

/-
Shallow embedding of the-zero-overhead-principle repository:
a 2D entity with integer coordinates, in two variants
(src/C++/program.cpp and src/C/program.c), together with the
scripted driver programs of both `main` functions.

Coordinates are C `int`; no value in either driver comes anywhere near
the `int` bounds, so they are modelled as unbounded `Int`.  C/C++ integer
division truncates toward zero, which is `Int.tdiv`.
-/

/-- Two-dimensional entity holding coordinates of numeric type `T`
(C++ `template <typename T> class Entity`, fields `x` and `y`). -/
structure Entity (T : Type) where
  x : T
  y : T
deriving DecidableEq

namespace Cpp

/-- C++ `class Player : public Entity<int>`. -/
abbrev Player := Entity Int

/-- `Entity::setX`: `this->x = x`. -/
def setX (p : Player) (x : Int) : Player := { p with x := x }

/-- `Entity::getX`: `return x`. -/
def getX (p : Player) : Int := p.x

/-- `Entity::setY`: `this->y = y`. -/
def setY (p : Player) (y : Int) : Player := { p with y := y }

/-- `Entity::getY`: `return y`. -/
def getY (p : Player) : Int := p.y

/-- `Player::move_left`: `this->x -= amount`. -/
def move_left (p : Player) (amount : Int) : Player := { p with x := p.x - amount }

/-- `Player::move_right`: `this->x += amount`. -/
def move_right (p : Player) (amount : Int) : Player := { p with x := p.x + amount }

/-- `Player::move_up`: `this->y -= amount`. -/
def move_up (p : Player) (amount : Int) : Player := { p with y := p.y - amount }

/-- `Player::move_down`: `this->y += amount`. -/
def move_down (p : Player) (amount : Int) : Player := { p with y := p.y + amount }

/-- `Player::operator+=`: `this->x += amount; this->y += amount` (the
translate / accumulation operation). -/
def plusAssign (p : Player) (amount : Int) : Player :=
  { p with x := p.x + amount, y := p.y + amount }

/-- States after the scripted prefix of the C++ `main` (program.cpp lines
39-46): construction of `p1`, `p2`, `p3` and the moves and sets up to but
not including the three `+=` statements.  Returns `(p1, p2, p3)`. -/
def scriptedStates : Player × Player × Player :=
  let p1 : Player := ⟨55, 47⟩
  let p2 : Player := ⟨9, 74⟩
  let p3 : Player := ⟨10, 25⟩
  let p2 := move_right p2 5
  let p3 := move_down p3 5
  let p1 := setX p1 (getX p2 * getX p3)
  let p1 := setY p1 (getY p2 * getY p3)
  let p1 := move_left p1 (Int.tdiv (getX p2) 2)
  let p1 := move_up p1 (Int.tdiv (getY p2) 2)
  (p1, p2, p3)

/-- The full C++ `main` (program.cpp): the scripted prefix, then
`p1 += 1; p2 += 2; p3 += 3`, returning `p1.getX() * p2.getX() * p3.getX()`. -/
def mainValue : Int :=
  let (p1, p2, p3) := scriptedStates
  let p1 := plusAssign p1 1
  let p2 := plusAssign p2 2
  let p3 := plusAssign p3 3
  getX p1 * getX p2 * getX p3

end Cpp

namespace CImpl

/-- C `typedef struct Player { int x; int y; } Player`. -/
structure Player where
  x : Int
  y : Int
deriving DecidableEq

/-- C `player_setX(Player *p, int x) { p->x = x; }`; the returned state is
the state left in `*p`. -/
def player_setX (p : Player) (x : Int) : Player := { p with x := x }

/-- C `player_getX(Player *p) { return p->x; }`; returns the read value
together with the state left in `*p`. -/
def player_getX (p : Player) : Int × Player := (p.x, p)

/-- C `player_setY(Player *p, int y) { p->y = y; }`. -/
def player_setY (p : Player) (y : Int) : Player := { p with y := y }

/-- C `player_getY(Player *p) { return p->y; }`. -/
def player_getY (p : Player) : Int × Player := (p.y, p)

/-- C `player_move_left(Player *p, int amount) { p->x -= amount; }`. -/
def player_move_left (p : Player) (amount : Int) : Player := { p with x := p.x - amount }

/-- C `player_move_right(Player *p, int amount) { p->x += amount; }`. -/
def player_move_right (p : Player) (amount : Int) : Player := { p with x := p.x + amount }

/-- C `player_move_up(Player *p, int amount) { p->y -= amount; }`. -/
def player_move_up (p : Player) (amount : Int) : Player := { p with y := p.y - amount }

/-- C `player_move_down(Player *p, int amount) { p->y += amount; }`. -/
def player_move_down (p : Player) (amount : Int) : Player := { p with y := p.y + amount }

/-- Final states `(p1, p2, p3)` of the C `main` (program.c lines 22-31).
Note line 26 sets `p1.y` to the quotient `p2.y / p3.y`, unlike the C++
variant which sets the product.  Getter results are used via `.1`; the
getters leave the pointed-to state unchanged (proved below). -/
def mainStates : Player × Player × Player :=
  let p1 : Player := ⟨55, 47⟩
  let p2 : Player := ⟨9, 74⟩
  let p3 : Player := ⟨10, 25⟩
  let p2 := player_move_right p2 5
  let p3 := player_move_down p3 5
  let p1 := player_setX p1 ((player_getX p2).1 * (player_getX p3).1)
  let p1 := player_setY p1 (Int.tdiv (player_getY p2).1 (player_getY p3).1)
  let p1 := player_move_left p1 (Int.tdiv (player_getX p2).1 2)
  let p1 := player_move_up p1 (Int.tdiv (player_getY p2).1 2)
  (p1, p2, p3)

/-- Return value of the C `main`: `p1.x * p2.x * p3.x` on the final states. -/
def mainValue : Int :=
  let (p1, p2, p3) := mainStates
  (player_getX p1).1 * (player_getX p2).1 * (player_getX p3).1

end CImpl

/-- Division with the division-by-zero fault made explicit: `none` when the
divisor is zero, otherwise the C truncating quotient. -/
def checkedDiv (a b : Int) : Option Int :=
  if b = 0 then none else some (Int.tdiv a b)

/-- The C++ `main` with every division routed through `checkedDiv`:
returns `none` iff a division by zero would occur in the driver. -/
def cppMainChecked : Option Int := do
  let p1 : Cpp.Player := ⟨55, 47⟩
  let p2 : Cpp.Player := ⟨9, 74⟩
  let p3 : Cpp.Player := ⟨10, 25⟩
  let p2 := Cpp.move_right p2 5
  let p3 := Cpp.move_down p3 5
  let p1 := Cpp.setX p1 (Cpp.getX p2 * Cpp.getX p3)
  let p1 := Cpp.setY p1 (Cpp.getY p2 * Cpp.getY p3)
  let d1 ← checkedDiv (Cpp.getX p2) 2
  let p1 := Cpp.move_left p1 d1
  let d2 ← checkedDiv (Cpp.getY p2) 2
  let p1 := Cpp.move_up p1 d2
  let p1 := Cpp.plusAssign p1 1
  let p2 := Cpp.plusAssign p2 2
  let p3 := Cpp.plusAssign p3 3
  pure (Cpp.getX p1 * Cpp.getX p2 * Cpp.getX p3)

/-- The C `main` with every division routed through `checkedDiv`:
returns `none` iff a division by zero would occur in the driver. -/
def cMainChecked : Option Int := do
  let p1 : CImpl.Player := ⟨55, 47⟩
  let p2 : CImpl.Player := ⟨9, 74⟩
  let p3 : CImpl.Player := ⟨10, 25⟩
  let p2 := CImpl.player_move_right p2 5
  let p3 := CImpl.player_move_down p3 5
  let p1 := CImpl.player_setX p1 ((CImpl.player_getX p2).1 * (CImpl.player_getX p3).1)
  let q ← checkedDiv (CImpl.player_getY p2).1 (CImpl.player_getY p3).1
  let p1 := CImpl.player_setY p1 q
  let d1 ← checkedDiv (CImpl.player_getX p2).1 2
  let p1 := CImpl.player_move_left p1 d1
  let d2 ← checkedDiv (CImpl.player_getY p2).1 2
  let p1 := CImpl.player_move_up p1 d2
  pure ((CImpl.player_getX p1).1 * (CImpl.player_getX p2).1 * (CImpl.player_getX p3).1)

/-- C1: the scripted driver scenario — entities created at `p1=(55,47)`,
`p2=(9,74)`, `p3=(10,25)`, then `p2.move_right(5)`, `p3.move_down(5)`,
`p1.x := p2.x*p3.x`, `p1.y := p2.y*p3.y`, `p1.move_left(p2.x/2)`,
`p1.move_up(p2.y/2)` — yields `p2=(14,74)`, `p3=(10,30)`, `p1=(133,2183)`,
and the check value `p1.x * p2.x * p3.x = 18620`. -/
theorem cpp_scripted_scenario :
    Cpp.scriptedStates = (⟨133, 2183⟩, ⟨14, 74⟩, ⟨10, 30⟩) ∧
    (Cpp.scriptedStates.1).x * (Cpp.scriptedStates.2.1).x *
      (Cpp.scriptedStates.2.2).x = 18620 := by
  decide

/-- C2: the C++ `main` additionally applies `+=` with amounts 1, 2, 3 to
`p1`, `p2`, `p3`, so it returns `134 * 16 * 13 = 27872`. -/
theorem cpp_main_returns_27872 : Cpp.mainValue = 27872 := by
  decide

/-- C3: in the C variant's `main`, `p1.y` is set to the integer quotient
`74 / 30 = 2` (not the product 2220), so after `p1.move_up(37)` the final
`p1.y` is `-35`; the returned value is still 18620. -/
theorem c_main_quotient_y :
    (CImpl.player_setY ⟨140, 47⟩
        (Int.tdiv (CImpl.player_getY ⟨14, 74⟩).1 (CImpl.player_getY ⟨10, 30⟩).1)).y = 2 ∧
    CImpl.mainStates = (⟨133, -35⟩, ⟨14, 74⟩, ⟨10, 30⟩) ∧
    CImpl.mainValue = 18620 := by
  decide

/-- C4: for every state and every integer `a`, the `+=` accumulation
operator equals `move_right a` followed by `move_down a`. -/
theorem translate_eq_right_then_down (p : Cpp.Player) (a : Int) :
    Cpp.plusAssign p a = Cpp.move_down (Cpp.move_right p a) a :=
  rfl

/-- C5: for every state and every integer amount (negative included),
`move_left` yields `(x - a, y)`, `move_right` yields `(x + a, y)`,
`move_up` yields `(x, y - a)` and `move_down` yields `(x, y + a)`, in
both the C++ and the C variant. -/
theorem move_semantics (p : Cpp.Player) (q : CImpl.Player) (a : Int) :
    Cpp.move_left p a = ⟨p.x - a, p.y⟩ ∧
    Cpp.move_right p a = ⟨p.x + a, p.y⟩ ∧
    Cpp.move_up p a = ⟨p.x, p.y - a⟩ ∧
    Cpp.move_down p a = ⟨p.x, p.y + a⟩ ∧
    CImpl.player_move_left q a = ⟨q.x - a, q.y⟩ ∧
    CImpl.player_move_right q a = ⟨q.x + a, q.y⟩ ∧
    CImpl.player_move_up q a = ⟨q.x, q.y - a⟩ ∧
    CImpl.player_move_down q a = ⟨q.x, q.y + a⟩ :=
  ⟨rfl, rfl, rfl, rfl, rfl, rfl, rfl, rfl⟩

/-- C6: `move_left a` then `move_right a` restores the original state, and
symmetrically `move_up a` then `move_down a`, in both variants. -/
theorem moves_cancel (p : Cpp.Player) (q : CImpl.Player) (a : Int) :
    Cpp.move_right (Cpp.move_left p a) a = p ∧
    Cpp.move_down (Cpp.move_up p a) a = p ∧
    CImpl.player_move_right (CImpl.player_move_left q a) a = q ∧
    CImpl.player_move_down (CImpl.player_move_up q a) a = q := by
  obtain ⟨x, y⟩ := p
  obtain ⟨u, v⟩ := q
  refine ⟨?_, ?_, ?_, ?_⟩ <;>
    simp [Cpp.move_left, Cpp.move_right, Cpp.move_up, Cpp.move_down,
      CImpl.player_move_left, CImpl.player_move_right, CImpl.player_move_up,
      CImpl.player_move_down, Entity.mk.injEq, CImpl.Player.mk.injEq]

/-- C7: an entity created with coordinates `(x, y)` returns `x` from the
`x` getter and `y` from the `y` getter, for any integer pair (creation
performs no validation: the constructor is total over `Int × Int`). -/
theorem create_getters (x y : Int) :
    Cpp.getX ⟨x, y⟩ = x ∧ Cpp.getY ⟨x, y⟩ = y ∧
    (CImpl.player_getX ⟨x, y⟩).1 = x ∧ (CImpl.player_getY ⟨x, y⟩).1 = y :=
  ⟨rfl, rfl, rfl, rfl⟩

/-- C8: getters leave the state unchanged; `setX` replaces only `x` and
`setY` replaces only `y`; horizontal moves leave `y` unchanged and vertical
moves leave `x` unchanged, in both variants. -/
theorem frame_effects (p : Cpp.Player) (q : CImpl.Player) (v a : Int) :
    (CImpl.player_getX q).2 = q ∧ (CImpl.player_getY q).2 = q ∧
    Cpp.setX p v = ⟨v, p.y⟩ ∧ Cpp.setY p v = ⟨p.x, v⟩ ∧
    CImpl.player_setX q v = ⟨v, q.y⟩ ∧ CImpl.player_setY q v = ⟨q.x, v⟩ ∧
    (Cpp.move_left p a).y = p.y ∧ (Cpp.move_right p a).y = p.y ∧
    (Cpp.move_up p a).x = p.x ∧ (Cpp.move_down p a).x = p.x ∧
    (CImpl.player_move_left q a).y = q.y ∧ (CImpl.player_move_right q a).y = q.y ∧
    (CImpl.player_move_up q a).x = q.x ∧ (CImpl.player_move_down q a).x = q.x :=
  ⟨rfl, rfl, rfl, rfl, rfl, rfl, rfl, rfl, rfl, rfl, rfl, rfl, rfl, rfl⟩

/-- C9: `setX v` and `setY v` are idempotent in both variants. -/
theorem set_idempotent (p : Cpp.Player) (q : CImpl.Player) (v : Int) :
    Cpp.setX (Cpp.setX p v) v = Cpp.setX p v ∧
    Cpp.setY (Cpp.setY p v) v = Cpp.setY p v ∧
    CImpl.player_setX (CImpl.player_setX q v) v = CImpl.player_setX q v ∧
    CImpl.player_setY (CImpl.player_setY q v) v = CImpl.player_setY q v :=
  ⟨rfl, rfl, rfl, rfl⟩

/-- C10: with every division routed through a checked division that fails
on a zero divisor, both drivers run to completion (no `none`): the
division-by-zero branch is unreachable in the given scenarios, and the
checked drivers agree with the plain ones. -/
theorem drivers_no_div_by_zero :
    cppMainChecked = some 27872 ∧ cMainChecked = some 18620 ∧
    cppMainChecked = some Cpp.mainValue ∧ cMainChecked = some CImpl.mainValue := by
  decide
